import Mathlib

/-!
Shallow embedding of the demand-classification and inventory-segmentation
pipeline of this repository (source files
`src/analytics/demand_classifier.py` and
`src/clustering/kmeans_segmenter.py`).

Numbers are modelled as rationals.  Where the IEEE floating-point special
values (NaN and the two infinities) are semantically relevant — pandas
`fillna` / `replace` sanitisation, float division by zero — values are
wrapped in the four-case type `RVal` below, whose arithmetic follows the
IEEE rules implemented by numpy/pandas.
-/

/-- Float surrogate: a (finite) rational value or one of the IEEE special
values NaN, +infinity, -infinity. -/
inductive RVal where
  | fin (q : ℚ)
  | nan
  | inf
  | ninf
  deriving DecidableEq

namespace RVal

/-- Division with the IEEE-754 semantics of numpy/pandas float division:
finite/0 is NaN or a signed infinity depending on the numerator's sign. -/
def div : RVal → RVal → RVal
  | fin a, fin b =>
      if b = 0 then (if a = 0 then nan else if 0 < a then inf else ninf)
      else fin (a / b)
  | fin _, inf => fin 0
  | fin _, ninf => fin 0
  | inf, fin b => if 0 ≤ b then inf else ninf
  | ninf, fin b => if 0 ≤ b then ninf else inf
  | inf, inf => nan
  | inf, ninf => nan
  | ninf, inf => nan
  | ninf, ninf => nan
  | nan, _ => nan
  | _, nan => nan

/-- Multiplication with IEEE-754 semantics (0 times an infinity is NaN). -/
def mul : RVal → RVal → RVal
  | fin a, fin b => fin (a * b)
  | fin a, inf => if a = 0 then nan else if 0 < a then inf else ninf
  | inf, fin a => if a = 0 then nan else if 0 < a then inf else ninf
  | fin a, ninf => if a = 0 then nan else if 0 < a then ninf else inf
  | ninf, fin a => if a = 0 then nan else if 0 < a then ninf else inf
  | inf, inf => inf
  | inf, ninf => ninf
  | ninf, inf => ninf
  | ninf, ninf => inf
  | nan, _ => nan
  | _, nan => nan

/-- pandas `fillna(0)`: replaces NaN with 0, leaves everything else
(including infinities) unchanged. -/
def fillna0 : RVal → RVal
  | nan => fin 0
  | v => v

/-- pandas `fillna(0)` composed with `replace([np.inf, -np.inf], 0)`: every
non-finite value becomes 0. -/
def sanitize0 : RVal → RVal
  | fin q => fin q
  | _ => fin 0

/-- IEEE comparison of a float against a finite constant: NaN compares
false, +infinity is not below any finite value, -infinity is below all. -/
def ltQ : RVal → ℚ → Bool
  | fin a, q => decide (a < q)
  | nan, _ => false
  | inf, _ => false
  | ninf, _ => true

/-- Predicate: the value is an ordinary (finite, non-NaN) number. -/
def isFinite : RVal → Bool
  | fin _ => true
  | _ => false

/-- Projection to the rational payload (0 for the special values). -/
def toQ : RVal → ℚ
  | fin q => q
  | _ => 0

/-- pandas `clip(0, 1)`: clamps finite values into the unit interval and the
infinities to the corresponding bound; NaN is left unchanged. -/
def clip01 : RVal → RVal
  | fin q => fin (max 0 (min 1 q))
  | inf => fin 1
  | ninf => fin 0
  | nan => nan

end RVal

/-- Arithmetic mean of a list of rationals (the guarded uses below only
apply it to non-empty lists). -/
def meanQ (xs : List ℚ) : ℚ := xs.sum / xs.length

/-- Unbiased sample variance (pandas/numpy default, ddof = 1). -/
def sampleVar (xs : List ℚ) : ℚ :=
  (xs.map (fun x => (x - meanQ xs) ^ 2)).sum / ((xs.length : ℚ) - 1)

/-- Modelled stand-in for the real square root taken inside a standard
deviation.  No claim settled in this development depends on the numeric
value of a standard deviation — only on its finiteness, sign behaviour
through squaring, and determinism — so the square root is represented by an
arbitrary fixed computable function of the radicand. -/
def sqrtQ (q : ℚ) : ℚ := q

/-- pandas sample standard deviation of a list as a float: NaN when there
are fewer than two observations (ddof = 1), otherwise the square root of
the sample variance. -/
def sampleStdR (xs : List ℚ) : RVal :=
  if xs.length ≤ 1 then RVal.nan else RVal.fin (sqrtQ (sampleVar xs))

/-!  Embedding of `src/analytics/demand_classifier.py`.  -/

/-- Row of the classifier input table: the columns selected at
`demand_classifier.py:52`.  Identifiers and dates are abstract ordinals. -/
structure SRow where
  store_id : ℕ
  item_id : ℕ
  date : ℕ
  total_sales : ℚ
  deriving DecidableEq

/-- Per-entity statistics row produced by
`DemandClassifier.calculate_features` (lines 63-98). -/
structure StatRow where
  store_id : ℕ
  item_id : ℕ
  total_demand : ℚ
  num_observations : ℕ
  non_zero_obs : ℕ
  nz_mean : ℚ
  nz_std : ℚ
  CV : RVal
  ADI : RVal
  CV2 : RVal
  deriving DecidableEq

/-- Statistics of one (store, item) group, mirroring lines 65-96 of
`demand_classifier.py`: the aggregated sum and counts over the group
(line 65-69), `ADI` as the float quotient of the two counts (line 73), the
mean and sample standard deviation of the non-zero sub-series with the
NaN-fill of lines 87-88, `CV = std/mean` as float division (line 92),
and `CV2 = CV ** 2` with the NaN-fill of line 96. -/
def groupStats (store item : ℕ) (sales : List ℚ) : StatRow :=
  let nzs := sales.filter (fun x => decide (0 < x))
  let nzMean : ℚ := if nzs.length = 0 then 0 else meanQ nzs
  let nzStd : ℚ := if nzs.length ≤ 1 then 0 else sqrtQ (sampleVar nzs)
  let cv := RVal.div (RVal.fin nzStd) (RVal.fin nzMean)
  { store_id := store
    item_id := item
    total_demand := sales.sum
    num_observations := sales.length
    non_zero_obs := nzs.length
    nz_mean := nzMean
    nz_std := nzStd
    CV := cv
    ADI := RVal.div (RVal.fin (sales.length : ℚ)) (RVal.fin (nzs.length : ℚ))
    CV2 := RVal.fillna0 (RVal.mul cv cv) }

/-- Group keys (store, item) in order of first appearance.  pandas `groupby`
sorts the group keys; no claim below depends on row order, so
first-appearance order is kept. -/
def dfKeys (df : List SRow) : List (ℕ × ℕ) :=
  (df.map (fun r => (r.store_id, r.item_id))).dedup

/-- Sales series of one group, in input order.  Line 55 of the source sorts
by store, item and date first; all per-group statistics computed here are
order-independent, so the within-group order is immaterial. -/
def groupSales (df : List SRow) (key : ℕ × ℕ) : List ℚ :=
  (df.filter (fun r => decide ((r.store_id, r.item_id) = key))).map
    (fun r => r.total_sales)

/-- DemandClassifier.calculate_features (lines 47-98): one statistics row
per distinct (store_id, item_id) key of the input table.  The computation
is total; the source contains no failure path (and no DataError class). -/
def calculate_features (df : List SRow) : List StatRow :=
  (dfKeys df).map (fun k => groupStats k.1 k.2 (groupSales df k))

/-- Demand-pattern labels of Syntetos-Boylan classification. -/
inductive Pattern where
  | Smooth
  | Erratic
  | Intermittent
  | Lumpy
  deriving DecidableEq

/-- Per-row classification rule `get_category` inside
`DemandClassifier.classify_patterns` (lines 104-117); comparisons on the
possibly non-finite statistics are IEEE float comparisons (`RVal.ltQ`). -/
def get_category (adi cv2 : RVal) : Pattern :=
  if adi.ltQ (132/100) then
    if cv2.ltQ (49/100) then .Smooth else .Erratic
  else
    if cv2.ltQ (49/100) then .Intermittent else .Lumpy

/-- DemandClassifier.classify_patterns (lines 100-120): attaches the pattern
label to every statistics row. -/
def classify_patterns (rows : List StatRow) : List (StatRow × Pattern) :=
  rows.map (fun r => (r, get_category r.ADI r.CV2))

/-!  Embedding of `src/clustering/kmeans_segmenter.py`.  -/

/-- Python exceptions observable from the segmenter code paths modelled
here. -/
inductive PyErr where
  | attributeError
  | keyError
  | notFittedError
  deriving DecidableEq

/-- Row of the segmenter input table: sales history with exogenous revenue.
The date column enters the computation only through its calendar month
(line 114) and through the within-group ordering (trend slope). -/
structure KRow where
  item_id : ℕ
  store_id : ℕ
  revenue : ℚ
  sales : ℚ
  month : ℕ
  deriving DecidableEq

/-- Engineered feature vector of one entity, float-valued (lines 76-100). -/
structure Feat where
  revenue_contribution : RVal
  demand_cv : RVal
  seasonality_strength : RVal
  trend_slope : RVal
  stockout_frequency : RVal
  supplier_reliability : RVal
  deriving DecidableEq

/-- Entity keys (item, store) in order of first appearance. -/
def kKeys (df : List KRow) : List (ℕ × ℕ) :=
  (df.map (fun r => (r.item_id, r.store_id))).dedup

/-- Rows of one entity group, in input order. -/
def kGroup (df : List KRow) (key : ℕ × ℕ) : List KRow :=
  df.filter (fun r => decide ((r.item_id, r.store_id) = key))

/-- Sales series of one entity group. -/
def salesOf (df : List KRow) (key : ℕ × ℕ) : List ℚ :=
  (kGroup df key).map (fun r => r.sales)

/-- Feature 1 (line 79): groupwise sum of the exogenous revenue column. -/
def revenueOf (df : List KRow) (key : ℕ × ℕ) : ℚ :=
  ((kGroup df key).map (fun r => r.revenue)).sum

/-- Feature 2 (lines 82-84): sample std over mean of ALL observations of the
group, as float division, then `fillna(0).replace([inf, -inf], 0)`. -/
def demandCvF (df : List KRow) (key : ℕ × ℕ) : RVal :=
  RVal.sanitize0
    (RVal.div (sampleStdR (salesOf df key)) (RVal.fin (meanQ (salesOf df key))))

/-- Feature 3 (lines 107-118): sample std of the per-calendar-month mean
demand, divided by the overall mean, `fillna(0)`, clipped to [0, 1]. -/
def seasonalityF (df : List KRow) (key : ℕ × ℕ) : RVal :=
  let g := kGroup df key
  let months := (g.map (fun r => r.month)).dedup
  let monthMeans := months.map (fun m =>
    meanQ ((g.filter (fun r => r.month == m)).map (fun r => r.sales)))
  RVal.clip01
    (RVal.fillna0
      (RVal.div (sampleStdR monthMeans) (RVal.fin (meanQ (salesOf df key)))))

/-- Ordinary-least-squares slope of a series against the index 0, 1, 2, ...,
as computed by scipy.stats.linregress (line 133). -/
def olsSlope (ys : List ℚ) : ℚ :=
  let n : ℚ := ys.length
  let xs : List ℚ := (List.range ys.length).map (fun i => (i : ℚ))
  let sx := xs.sum
  let sy := ys.sum
  let sxy := ((xs.zip ys).map (fun p => p.1 * p.2)).sum
  let sxx := (xs.map (fun x => x ^ 2)).sum
  (n * sxy - sx * sy) / (n * sxx - sx ^ 2)

/-- Per-group slope rule `calculate_slope` (lines 128-134): groups with
fewer than 10 observations get slope 0. -/
def rawSlope (ys : List ℚ) : ℚ :=
  if ys.length < 10 then 0 else olsSlope ys

/-- InventorySegmentation._calculate_trend_slope (lines 120-141): per-group
raw slopes, then batch-relative normalisation dividing every slope by the
maximum absolute slope plus 1e-10 (line 139).  The trailing `fillna(0)` is
a no-op on the rational values produced here (the divisor is positive). -/
def trendSlopes (df : List KRow) : List ((ℕ × ℕ) × ℚ) :=
  let raw := (kKeys df).map (fun k => (k, rawSlope (salesOf df k)))
  let mx := (raw.map (fun p => |p.2|)).foldr max 0
  raw.map (fun p => (p.1, p.2 / (mx + 1/10000000000)))

/-- InventorySegmentation._calculate_stockout_frequency (lines 143-151).
Line 149 evaluates `df.groupby([...])['sales'] == 0`.  A pandas GroupBy
object implements no elementwise `__eq__`, and Python's implicit
special-method lookup bypasses `__getattr__`, so the comparison falls back
to identity and yields the plain bool False; the subsequent
`False.groupby(level=[0, 1])` then raises AttributeError.  The method
therefore fails on every input. -/
def stockoutFrequencyF (_df : List KRow) : Except PyErr (List ((ℕ × ℕ) × RVal)) :=
  .error .attributeError

/-- Line 96 of the source: `np.random.uniform(0.7, 1.0, size=n)`.  Draws n
values from the global numpy RNG stream (modelled as the list of raw
unit-interval variates) and affinely maps them into [0.7, 1.0].  The
caller's data does not enter this computation at all. -/
def supplierReliabilityDraw (rng : List ℚ) (n : ℕ) : List ℚ :=
  (rng.take n).map (fun u => 7/10 + 3/10 * u)

/-- Final sanitisation of lines 99-100: `fillna(0)` then
`replace([np.inf, -np.inf], 0)` on every column. -/
def sanitizeFeat (f : Feat) : Feat :=
  { revenue_contribution := f.revenue_contribution.sanitize0
    demand_cv := f.demand_cv.sanitize0
    seasonality_strength := f.seasonality_strength.sanitize0
    trend_slope := f.trend_slope.sanitize0
    stockout_frequency := f.stockout_frequency.sanitize0
    supplier_reliability := f.supplier_reliability.sanitize0 }

/-- InventorySegmentation.prepare_features (lines 60-105), with the numpy
global RNG stream made explicit.  The steps run in source order: features
1-4 are computed, and the stockout step (line 93) raises AttributeError
before the supplier-reliability draw (line 96) and the final sanitisation
(lines 99-100) are ever reached, so the function fails on every input. -/
def prepare_features (df : List KRow) (rng : List ℚ) :
    Except PyErr (List ((ℕ × ℕ) × Feat)) := do
  let keys := kKeys df
  let stock ← stockoutFrequencyF df
  let supplierR := (supplierReliabilityDraw rng keys.length).map RVal.fin
  let rows := (keys.zip supplierR).map (fun p =>
    (p.1, sanitizeFeat
      { revenue_contribution := RVal.fin (revenueOf df p.1)
        demand_cv := demandCvF df p.1
        seasonality_strength := seasonalityF df p.1
        trend_slope := RVal.fin (((trendSlopes df).lookup p.1).getD 0)
        stockout_frequency := (stock.lookup p.1).getD RVal.nan
        supplier_reliability := p.2 }))
  pure rows

/-- Fitted standardisation parameters of sklearn's StandardScaler: column
means and scales (population standard deviation; a zero scale is replaced
by 1 so that constant columns transform to 0). -/
structure ScalerParams where
  means : List ℚ
  scales : List ℚ
  deriving DecidableEq

/-- Column j of a row-major matrix. -/
def colOf (rows : List (List ℚ)) (j : ℕ) : List ℚ :=
  rows.map (fun r => r.getD j 0)

/-- Population variance (ddof = 0), as used by StandardScaler. -/
def popVar (xs : List ℚ) : ℚ :=
  (xs.map (fun x => (x - meanQ xs) ^ 2)).sum / (xs.length : ℚ)

/-- Modelled from the spec: sklearn's StandardScaler.fit is external library
code; §4.4 of the spec has it compute per-feature mean and standard
deviation across the batch. -/
def scalerFit (rows : List (List ℚ)) : ScalerParams :=
  let d := (rows.headD []).length
  { means := (List.range d).map (fun j => meanQ (colOf rows j))
    scales := (List.range d).map (fun j =>
      let s := sqrtQ (popVar (colOf rows j))
      if s = 0 then 1 else s) }

/-- StandardScaler.transform with previously fitted parameters:
componentwise (x - mean) / scale. -/
def scalerTransform (sc : ScalerParams) (rows : List (List ℚ)) : List (List ℚ) :=
  rows.map (fun r => (List.range sc.means.length).map (fun j =>
    (r.getD j 0 - sc.means.getD j 0) / sc.scales.getD j 1))

/-- Fitted cluster model: the centroids. -/
structure KMeansModel where
  centroids : List (List ℚ)
  deriving DecidableEq

/-- Squared Euclidean distance of two points. -/
def distSq (p q : List ℚ) : ℚ :=
  ((p.zip q).map (fun t => (t.1 - t.2) ^ 2)).sum

/-- Index of the smallest element, ties broken by lowest index. -/
def findMinIdxAux : List ℚ → ℚ → ℕ → ℕ → ℕ
  | [], _, _, bi => bi
  | d :: rest, bd, i, bi =>
    if d < bd then findMinIdxAux rest d (i + 1) i
    else findMinIdxAux rest bd (i + 1) bi

/-- Index of the nearest centroid (Euclidean, ties to the lowest index). -/
def nearestIdx (cs : List (List ℚ)) (p : List ℚ) : ℕ :=
  match cs with
  | [] => 0
  | c :: rest => findMinIdxAux (rest.map (fun c2 => distSq c2 p)) (distSq c p) 1 0

/-- One Lloyd iteration: each centroid becomes the mean of the points
assigned to it (kept unchanged when no point is assigned). -/
def lloydStep (pts : List (List ℚ)) (cs : List (List ℚ)) : List (List ℚ) :=
  (List.range cs.length).map (fun i =>
    let mine := pts.filter (fun p => nearestIdx cs p == i)
    if mine.isEmpty then cs.getD i []
    else (List.range ((mine.headD []).length)).map (fun j => meanQ (colOf mine j)))

/-- Fuel-bounded Lloyd iteration. -/
def lloydIter : ℕ → List (List ℚ) → List (List ℚ) → List (List ℚ)
  | 0, _, cs => cs
  | Nat.succ f, pts, cs => lloydIter f pts (lloydStep pts cs)

/-- Modelled from the spec: sklearn.cluster.KMeans is external library code
(not part of this repository); §4.5 of the spec requires a centroid-based
iterative clustering, deterministic in (matrix, k, seed), with a bounded
iteration count (the call at lines 175-182 passes n_clusters, random_state,
n_init=10, max_iter=300).  It is represented as Lloyd iteration from a
deterministic initialisation; the seed is carried so the model is a
function of exactly the data the library call depends on. -/
def kmeansFit (k _seed : ℕ) (pts : List (List ℚ)) : KMeansModel :=
  { centroids := lloydIter 300 pts (pts.take k) }

/-- Cluster assignment of each row to its nearest centroid. -/
def kmeansPredict (m : KMeansModel) (rows : List (List ℚ)) : List ℕ :=
  rows.map (nearestIdx m.centroids)

/-- InventorySegmentation instance state: configuration plus the two model
fields, both unfitted after construction. -/
structure Segmenter where
  n_clusters : ℕ
  random_state : ℕ
  scaler : Option ScalerParams
  kmeans : Option KMeansModel
  deriving DecidableEq

/-- InventorySegmentation.__init__ (lines 37-57): stores the configuration;
`self.kmeans = None` and the fresh StandardScaler holds no fitted
statistics. -/
def initSegmenter (k seed : ℕ) : Segmenter :=
  { n_clusters := k, random_state := seed, scaler := none, kmeans := none }

/-- InventorySegmentation.fit (lines 153-192): fit the scaler on the feature
matrix, transform, fit k-means, store both in the instance.  The quality
metrics of lines 185-186 are diagnostics with no control-flow effect and
are not modelled. -/
def fit (seg : Segmenter) (features : List (List ℚ)) : Segmenter :=
  let sc := scalerFit features
  let scaled := scalerTransform sc features
  { seg with
    scaler := some sc
    kmeans := some (kmeansFit seg.n_clusters seg.random_state scaled) }

/-- InventorySegmentation.predict (lines 194-209).  The first statement is
`self.scaler.transform(features)`; on a never-fitted instance the scaler
holds no statistics and sklearn's fitted-check raises NotFittedError before
anything else happens.  (If the scaler were fitted while kmeans were still
None, `None.predict` would raise AttributeError; that state is unreachable
through this API.)  No branch refits. -/
def predict (seg : Segmenter) (features : List (List ℚ)) : Except PyErr (List ℕ) :=
  match seg.scaler with
  | none => .error .notFittedError
  | some sc =>
    match seg.kmeans with
    | none => .error .attributeError
    | some km => .ok (kmeansPredict km (scalerTransform sc features))

/-- Path-B pipeline on one batch: feature engineering, then fit, then
predict, with the RNG stream explicit; returns the feature matrix, the
centroids and the cluster assignments (mirrors main(), lines 329-338). -/
def runPipeline (k seed : ℕ) (df : List KRow) (rng : List ℚ) :
    Except PyErr (List (List ℚ) × List (List ℚ) × List ℕ) := do
  let feats ← prepare_features df rng
  let mat := feats.map (fun p =>
    [p.2.revenue_contribution.toQ, p.2.demand_cv.toQ,
     p.2.seasonality_strength.toQ, p.2.trend_slope.toQ,
     p.2.stockout_frequency.toQ, p.2.supplier_reliability.toQ])
  let seg := fit (initSegmenter k seed) mat
  let asg ← predict seg mat
  pure (mat, ((seg.kmeans.map KMeansModel.centroids).getD []), asg)

/-- Ascending sort of a rational list (the sort underlying a pandas
quantile). -/
def sortedQ (xs : List ℚ) : List ℚ := List.insertionSort (· ≤ ·) xs

/-- Interpolation position of the q-quantile on a list of length m:
q * (m - 1). -/
def qPos (s : List ℚ) (q : ℚ) : ℚ := q * ((s.length - 1 : ℕ) : ℚ)

/-- Index of the lower neighbour of the interpolation position. -/
def qIdx (s : List ℚ) (q : ℚ) : ℕ := (⌊qPos s q⌋).toNat

/-- Linear interpolation of the q-quantile on an ascending list, the default
interpolation of pandas Series.quantile: with h = q*(m-1), i = floor h and
g = h - i, the value is s[i] + g * (s[i+1] - s[i]) (for q in [0, 1] the
upper neighbour is only consulted when g > 0, in which case i+1 < m). -/
def interpSorted (s : List ℚ) (q : ℚ) : ℚ :=
  if s.length = 0 then 0
  else
    s.getD (qIdx s q) 0 +
      Int.fract (qPos s q) *
        (s.getD (qIdx s q + 1) (s.getD (qIdx s q) 0) - s.getD (qIdx s q) 0)

/-- pandas Series.quantile with the default linear interpolation. -/
def quantile (xs : List ℚ) (q : ℚ) : ℚ := interpSorted (sortedQ xs) q

/-- Feature row as consumed by assign_business_labels: the four columns
aggregated at lines 231-236.  (The stockout and supplier columns of the
full matrix are not consulted by this method; the seasonality and trend
means are aggregated there but never used for the label.) -/
structure FeatQ where
  revenue_contribution : ℚ
  demand_cv : ℚ
  seasonality_strength : ℚ
  trend_slope : ℚ
  deriving DecidableEq

/-- Cluster ids present in the assignment, ascending (pandas groupby sorts
its keys). -/
def clusterIds (pairs : List (FeatQ × ℕ)) : List ℕ :=
  List.insertionSort (· ≤ ·) ((pairs.map (fun p => p.2)).dedup)

/-- Per-cluster means of lines 227-236: one row (id, mean revenue, mean
demand-cv) per cluster id present in the assignment, ascending by id. -/
def clusterMeans (features : List FeatQ) (clusters : List ℕ) :
    List (ℕ × ℚ × ℚ) :=
  let pairs := features.zip clusters
  (clusterIds pairs).map (fun c =>
    let mine := (pairs.filter (fun p => p.2 == c)).map (fun p => p.1)
    (c, meanQ (mine.map (fun f => f.revenue_contribution)),
        meanQ (mine.map (fun f => f.demand_cv))))

/-- Value-tier rule of lines 245-250: strictly above the 67th percentile is
Premium, strictly above the 33rd is Mid-Tier, otherwise Budget. -/
def valueLabel (meanRev q33 q67 : ℚ) : String :=
  if q67 < meanRev then "Premium"
  else if q33 < meanRev then "Mid-Tier"
  else "Budget"

/-- Stability-tier rule of lines 252-257. -/
def stabilityLabel (meanCv : ℚ) : String :=
  if meanCv < 1/2 then "Stable"
  else if meanCv < 1 then "Moderate"
  else "Volatile"

/-- Label string of line 259: value tier, dash, stability tier. -/
def clusterLabelStr (meanRev meanCv q33 q67 : ℚ) : String :=
  valueLabel meanRev q33 q67 ++ "-" ++ stabilityLabel meanCv

/-- Label-dictionary loop of lines 239-259: for every cluster id in
range(n_clusters) ascending, look the id up in the per-cluster mean table —
`.loc[cluster]` raises KeyError when the id has no row, i.e. when the
cluster is empty — and form its label string. -/
def buildLabels (stats : List (ℕ × ℚ × ℚ)) (q33 q67 : ℚ) :
    List ℕ → Except PyErr (List (ℕ × String))
  | [] => .ok []
  | c :: rest =>
    match stats.lookup c with
    | none => .error .keyError
    | some ms =>
      match buildLabels stats q33 q67 rest with
      | .error e => .error e
      | .ok tail => .ok ((c, clusterLabelStr ms.1 ms.2 q33 q67) :: tail)

/-- InventorySegmentation.assign_business_labels (lines 211-264): per-cluster
means, then the label dictionary over ids 0..n_clusters-1 (KeyError on an
empty cluster), then every entity's cluster id mapped through the
dictionary (pandas Series.map yields NaN — here none — for an id absent
from the dictionary). -/
def assign_business_labels (features : List FeatQ) (clusters : List ℕ)
    (n_clusters : ℕ) : Except PyErr (List (Option String)) :=
  let stats := clusterMeans features clusters
  let revs := stats.map (fun s => s.2.1)
  let q67 := quantile revs (67/100)
  let q33 := quantile revs (33/100)
  match buildLabels stats q33 q67 (List.range n_clusters) with
  | .error e => .error e
  | .ok dict => .ok (clusters.map (fun c => dict.lookup c))

/-!  Helper lemmas.  -/

theorem getD_mono_of_sorted {s : List ℚ} (hs : List.Sorted (· ≤ ·) s) {i j : ℕ}
    (hij : i ≤ j) (hj : j < s.length) : s.getD i 0 ≤ s.getD j 0 := by
  have hi : i < s.length := lt_of_le_of_lt hij hj
  rw [List.getD_eq_getElem _ _ hi, List.getD_eq_getElem _ _ hj]
  have := hs.rel_get_of_le (a := ⟨i, hi⟩) (b := ⟨j, hj⟩) hij
  simpa using this

theorem qPos_nonneg {s : List ℚ} {q : ℚ} (hq : 0 ≤ q) : 0 ≤ qPos s q :=
  mul_nonneg hq (by positivity)

theorem qIdx_le_cast {s : List ℚ} {q : ℚ} (hq : 0 ≤ q) : (qIdx s q : ℚ) ≤ qPos s q := by
  have h0 : (0 : ℤ) ≤ ⌊qPos s q⌋ := Int.floor_nonneg.mpr (qPos_nonneg hq)
  have : ((qIdx s q : ℤ) : ℚ) = ((⌊qPos s q⌋ : ℤ) : ℚ) := by
    rw [qIdx, Int.toNat_of_nonneg h0]
  calc (qIdx s q : ℚ) = ((⌊qPos s q⌋ : ℤ) : ℚ) := by push_cast at this ⊢; exact this
    _ ≤ qPos s q := Int.floor_le _

theorem cast_lt_qIdx_add_one {s : List ℚ} {q : ℚ} (hq : 0 ≤ q) :
    qPos s q < (qIdx s q : ℚ) + 1 := by
  have h0 : (0 : ℤ) ≤ ⌊qPos s q⌋ := Int.floor_nonneg.mpr (qPos_nonneg hq)
  have h1 : ((qIdx s q : ℤ) : ℚ) = ((⌊qPos s q⌋ : ℤ) : ℚ) := by
    rw [qIdx, Int.toNat_of_nonneg h0]
  have := Int.lt_floor_add_one (qPos s q)
  push_cast at h1
  rw [h1]
  exact this

theorem floor_qIdx_eq {s : List ℚ} {q : ℚ} (hq : 0 ≤ q) :
    (⌊qPos s q⌋ : ℤ) = (qIdx s q : ℤ) := by
  have h0 : (0 : ℤ) ≤ ⌊qPos s q⌋ := Int.floor_nonneg.mpr (qPos_nonneg hq)
  rw [qIdx, Int.toNat_of_nonneg h0]

theorem qIdx_mono {s : List ℚ} {q1 q2 : ℚ} (h12 : q1 ≤ q2) : qIdx s q1 ≤ qIdx s q2 := by
  have : qPos s q1 ≤ qPos s q2 :=
    mul_le_mul_of_nonneg_right h12 (by positivity)
  exact Int.toNat_le_toNat (Int.floor_mono this)

theorem qIdx_lt_length {s : List ℚ} {q : ℚ} (hq1 : q ≤ 1)
    (hm : s.length ≠ 0) : qIdx s q < s.length := by
  have hpos : qPos s q ≤ ((s.length - 1 : ℕ) : ℚ) := by
    rw [qPos]
    exact mul_le_of_le_one_left (by positivity) hq1
  have hfl : ⌊qPos s q⌋ ≤ ((s.length - 1 : ℕ) : ℤ) := by
    have := Int.floor_mono hpos
    rwa [Int.floor_natCast] at this
  have : qIdx s q ≤ s.length - 1 := by
    rw [qIdx]
    omega
  omega

theorem interpSorted_mono {s : List ℚ} (hs : List.Sorted (· ≤ ·) s) {q1 q2 : ℚ}
    (h0 : 0 ≤ q1) (h12 : q1 ≤ q2) (h1 : q2 ≤ 1) :
    interpSorted s q1 ≤ interpSorted s q2 := by
  rcases Nat.eq_zero_or_pos s.length with hm | hm
  · rw [interpSorted, interpSorted, if_pos hm, if_pos hm]
  have hmne : s.length ≠ 0 := Nat.pos_iff_ne_zero.mp hm
  have h02 : (0 : ℚ) ≤ q2 := le_trans h0 h12
  have h11 : q1 ≤ 1 := le_trans h12 h1
  rw [interpSorted, interpSorted, if_neg hmne, if_neg hmne]
  set i1 := qIdx s q1 with hi1
  set i2 := qIdx s q2 with hi2
  have hii : i1 ≤ i2 := qIdx_mono h12
  have hi2m : i2 < s.length := qIdx_lt_length h1 hmne
  have hg1 : 0 ≤ Int.fract (qPos s q1) := Int.fract_nonneg _
  have hg2 : 0 ≤ Int.fract (qPos s q2) := Int.fract_nonneg _
  have hg1lt : Int.fract (qPos s q1) < 1 := Int.fract_lt_one _
  rcases Nat.lt_or_ge i1 i2 with hlt | hge
  · -- lower index strictly smaller: chain through the sorted values
    have hi11m : i1 + 1 < s.length := lt_of_le_of_lt hlt hi2m
    have hv1 : s.getD i1 0 ≤ s.getD (i1 + 1) (s.getD i1 0) := by
      rw [List.getD_eq_getElem _ _ hi11m]
      rw [List.getD_eq_getElem _ _ (lt_trans (Nat.lt_succ_self i1) hi11m)]
      have := hs.rel_get_of_le (a := ⟨i1, lt_trans (Nat.lt_succ_self i1) hi11m⟩)
        (b := ⟨i1 + 1, hi11m⟩) (by simp)
      simpa using this
    have step1 : s.getD i1 0 + Int.fract (qPos s q1) * (s.getD (i1 + 1) (s.getD i1 0) - s.getD i1 0)
        ≤ s.getD (i1 + 1) (s.getD i1 0) := by
      nlinarith [hg1, hg1lt, hv1]
    have step2 : s.getD (i1 + 1) (s.getD i1 0) ≤ s.getD i2 0 := by
      rw [List.getD_eq_getElem _ _ hi11m]
      rw [List.getD_eq_getElem _ _ hi2m]
      have := hs.rel_get_of_le (a := ⟨i1 + 1, hi11m⟩) (b := ⟨i2, hi2m⟩)
        (by simpa using hlt)
      simpa using this
    have step3 : s.getD i2 0 ≤
        s.getD i2 0 + Int.fract (qPos s q2) * (s.getD (i2 + 1) (s.getD i2 0) - s.getD i2 0) := by
      have hv2 : s.getD i2 0 ≤ s.getD (i2 + 1) (s.getD i2 0) := by
        rcases Nat.lt_or_ge (i2 + 1) s.length with hin | hout
        · rw [List.getD_eq_getElem _ _ hin, List.getD_eq_getElem _ _ hi2m]
          have := hs.rel_get_of_le (a := ⟨i2, hi2m⟩) (b := ⟨i2 + 1, hin⟩) (by simp)
          simpa using this
        · rw [List.getD_eq_default _ _ hout]
      nlinarith [hg2, hv2]
    linarith
  · -- equal indices
    have heq : i1 = i2 := le_antisymm hii hge
    have hfl : (⌊qPos s q1⌋ : ℤ) = ⌊qPos s q2⌋ := by
      rw [floor_qIdx_eq h0, floor_qIdx_eq h02, ← hi1, ← hi2, heq]
    have hgg : Int.fract (qPos s q1) ≤ Int.fract (qPos s q2) := by
      rw [Int.fract, Int.fract, hfl]
      have : qPos s q1 ≤ qPos s q2 := mul_le_mul_of_nonneg_right h12 (by positivity)
      linarith
    have hv2 : s.getD i2 0 ≤ s.getD (i2 + 1) (s.getD i2 0) := by
      rcases Nat.lt_or_ge (i2 + 1) s.length with hin | hout
      · rw [List.getD_eq_getElem _ _ hin, List.getD_eq_getElem _ _ hi2m]
        have := hs.rel_get_of_le (a := ⟨i2, hi2m⟩) (b := ⟨i2 + 1, hin⟩) (by simp)
        simpa using this
      · rw [List.getD_eq_default _ _ hout]
    rw [heq]
    nlinarith [hgg, hv2]

theorem quantile_mono {xs : List ℚ} {q1 q2 : ℚ} (h0 : 0 ≤ q1) (h12 : q1 ≤ q2)
    (h1 : q2 ≤ 1) : quantile xs q1 ≤ quantile xs q2 :=
  interpSorted_mono (List.sorted_insertionSort _ xs) h0 h12 h1

theorem buildLabels_error {stats : List (ℕ × ℚ × ℚ)} {q33 q67 : ℚ} {ids : List ℕ}
    {c : ℕ} (hc : c ∈ ids) (hnone : stats.lookup c = none) :
    buildLabels stats q33 q67 ids = .error .keyError := by
  induction ids with
  | nil => simp at hc
  | cons d rest ih =>
    rcases List.mem_cons.mp hc with rfl | hmem
    · simp [buildLabels, hnone]
    · cases hd : stats.lookup d with
      | none => simp [buildLabels, hd]
      | some ms => simp [buildLabels, hd, ih hmem]

theorem clusterMeans_lookup_none (features : List FeatQ) (clusters : List ℕ)
    (c : ℕ) (hc : c ∉ clusters) :
    (clusterMeans features clusters).lookup c = none := by
  have hkeys : c ∉ clusterIds (features.zip clusters) := by
    intro hmem
    rw [clusterIds] at hmem
    have h2 : c ∈ (features.zip clusters).map (fun p => p.2) := by
      have hperm := List.perm_insertionSort (· ≤ ·)
        (((features.zip clusters).map (fun p => p.2)).dedup)
      exact List.mem_dedup.mp (hperm.mem_iff.mp hmem)
    obtain ⟨p, hp, hpc⟩ := List.mem_map.mp h2
    obtain ⟨a, b⟩ := p
    cases hpc
    exact hc (List.of_mem_zip hp).2
  rw [clusterMeans]
  generalize clusterIds (features.zip clusters) = l at hkeys
  induction l with
  | nil => rfl
  | cons d rest ih =>
    have hcd : c ≠ d := fun h => hkeys (h ▸ List.mem_cons_self d rest)
    have hrest : c ∉ rest := fun h => hkeys (List.mem_cons_of_mem d h)
    simp only [List.map_cons, List.lookup_cons]
    rw [show (c == d) = false from beq_eq_false_iff_ne.mpr hcd]
    exact ih hrest

/-- C10: when some cluster id in 0..k-1 has no assigned entity, the label
loop of assign_business_labels indexes the per-cluster mean table at a
missing id and the call fails with a KeyError instead of returning
labels. -/
theorem C10_empty_cluster_keyError (features : List FeatQ) (clusters : List ℕ)
    (k c : ℕ) (hck : c < k) (hc : c ∉ clusters) :
    assign_business_labels features clusters k = .error .keyError := by
  simp only [assign_business_labels]
  rw [buildLabels_error (List.mem_range.mpr hck)
    (clusterMeans_lookup_none features clusters c hc)]

/-- Witness for C10 at a concrete input: two configured clusters, one
assigned entity, cluster 1 empty. -/
theorem C10_empty_cluster_keyError_witness :
    ((1 < 2 ∧ 1 ∉ [0]) ∧
      assign_business_labels [⟨1, 0, 0, 0⟩] [0] 2 = .error .keyError) :=
  ⟨⟨by norm_num, by simp⟩,
    C10_empty_cluster_keyError [⟨1, 0, 0, 0⟩] [0] 2 1 (by norm_num) (by simp)⟩

/-- C5 (amended): the two-axis labelling rule.  Premium exactly when the
cluster-mean revenue strictly exceeds the 67th percentile of the
cluster-mean revenues; Budget exactly when it is less than or equal to the
33rd percentile (so a mean exactly at the 33rd percentile gets Budget, not
Mid-Tier); Mid-Tier exactly strictly between the 33rd and at most the 67th;
stability Stable below 0.5, Moderate below 1.0, else Volatile; the label is
the value tier, a dash, and the stability tier. -/
theorem C5_label_rule (revs : List ℚ) (meanRev meanCv : ℚ) :
    (valueLabel meanRev (quantile revs (33/100)) (quantile revs (67/100)) = "Premium"
      ↔ quantile revs (67/100) < meanRev) ∧
    (valueLabel meanRev (quantile revs (33/100)) (quantile revs (67/100)) = "Budget"
      ↔ meanRev ≤ quantile revs (33/100)) ∧
    (valueLabel meanRev (quantile revs (33/100)) (quantile revs (67/100)) = "Mid-Tier"
      ↔ quantile revs (33/100) < meanRev ∧ meanRev ≤ quantile revs (67/100)) ∧
    (stabilityLabel meanCv = "Stable" ↔ meanCv < 1/2) ∧
    (stabilityLabel meanCv = "Moderate" ↔ 1/2 ≤ meanCv ∧ meanCv < 1) ∧
    (stabilityLabel meanCv = "Volatile" ↔ 1 ≤ meanCv) ∧
    clusterLabelStr meanRev meanCv (quantile revs (33/100)) (quantile revs (67/100))
      = valueLabel meanRev (quantile revs (33/100)) (quantile revs (67/100))
        ++ "-" ++ stabilityLabel meanCv := by
  have hmono : quantile revs (33/100) ≤ quantile revs (67/100) :=
    quantile_mono (by norm_num) (by norm_num) (by norm_num)
  refine ⟨?_, ?_, ?_, ?_, ?_, ?_, rfl⟩
  · rw [valueLabel]; split_ifs with h1 h2
    · exact iff_of_true rfl h1
    · exact iff_of_false (by decide) h1
    · exact iff_of_false (by decide) h1
  · rw [valueLabel]; split_ifs with h1 h2
    · exact iff_of_false (by decide) (not_le.mpr (lt_of_le_of_lt hmono h1))
    · exact iff_of_false (by decide) (not_le.mpr h2)
    · exact iff_of_true rfl (not_lt.mp h2)
  · rw [valueLabel]; split_ifs with h1 h2
    · exact iff_of_false (by decide) (fun h => absurd h.2 (not_le.mpr h1))
    · exact iff_of_true rfl ⟨h2, not_lt.mp h1⟩
    · exact iff_of_false (by decide) (fun h => absurd h.1 h2)
  · rw [stabilityLabel]; split_ifs with h1 h2
    · exact iff_of_true rfl h1
    · exact iff_of_false (by decide) h1
    · exact iff_of_false (by decide) h1
  · rw [stabilityLabel]; split_ifs with h1 h2
    · exact iff_of_false (by decide) (fun h => absurd h1 (not_lt.mpr h.1))
    · exact iff_of_true rfl ⟨not_lt.mp h1, h2⟩
    · exact iff_of_false (by decide) (fun h => absurd h.2 h2)
  · rw [stabilityLabel]; split_ifs with h1 h2
    · exact iff_of_false (by decide) (not_le.mpr (lt_of_lt_of_le h1 (by norm_num)))
    · exact iff_of_false (by decide) (not_le.mpr h2)
    · exact iff_of_true rfl (not_lt.mp h2)

/-- Counterexample for C5 as stated: with cluster-mean revenues [1, 1, 2]
the 33rd percentile is exactly 1; cluster 0's mean revenue equals it (it is
not below it), so the claim assigns Mid-Tier, but the code's else-branch
assigns Budget. -/
theorem C5_counterexample :
    clusterMeans [⟨1, 1/10, 0, 0⟩, ⟨1, 1/10, 0, 0⟩, ⟨2, 1/10, 0, 0⟩] [0, 1, 2]
      = [(0, 1, 1/10), (1, 1, 1/10), (2, 2, 1/10)] ∧
    quantile [1, 1, 2] (33/100) = 1 ∧
    ¬ ((1 : ℚ) < quantile [1, 1, 2] (33/100)) ∧
    assign_business_labels [⟨1, 1/10, 0, 0⟩, ⟨1, 1/10, 0, 0⟩, ⟨2, 1/10, 0, 0⟩]
      [0, 1, 2] 3
      = .ok [some "Budget-Stable", some "Budget-Stable", some "Premium-Stable"] := by
  have hstats : clusterMeans [⟨1, 1/10, 0, 0⟩, ⟨1, 1/10, 0, 0⟩, ⟨2, 1/10, 0, 0⟩] [0, 1, 2]
      = [(0, 1, 1/10), (1, 1, 1/10), (2, 2, 1/10)] := by
    norm_num [clusterMeans, clusterIds, meanQ]
  have hq33 : quantile [1, 1, 2] (33/100) = 1 := by
    norm_num [quantile, sortedQ, interpSorted, qIdx, qPos, Int.fract]
  have hq67 : quantile [1, 1, 2] (67/100) = 67/50 := by
    norm_num [quantile, sortedQ, interpSorted, qIdx, qPos, Int.fract]
  have hl0 : clusterLabelStr 1 (1/10) 1 (67/50) = "Budget-Stable" := by
    norm_num [clusterLabelStr, valueLabel, stabilityLabel]; rfl
  have hl2 : clusterLabelStr 2 (1/10) 1 (67/50) = "Premium-Stable" := by
    norm_num [clusterLabelStr, valueLabel, stabilityLabel]; rfl
  have hdict : buildLabels [(0, 1, 1/10), (1, 1, 1/10), (2, 2, 1/10)] 1 (67/50)
      (List.range 3)
      = .ok [(0, clusterLabelStr 1 (1/10) 1 (67/50)),
             (1, clusterLabelStr 1 (1/10) 1 (67/50)),
             (2, clusterLabelStr 2 (1/10) 1 (67/50))] := rfl
  rw [hl0, hl2] at hdict
  refine ⟨hstats, hq33, by rw [hq33]; norm_num, ?_⟩
  simp only [assign_business_labels, hstats, List.map_cons, List.map_nil]
  rw [hq33, hq67, hdict]
  rfl

/-- C1: for every finite non-negative (ADI, CV2) pair the classifier follows
the threshold table with strict comparisons — a value exactly equal to a
threshold falls into the not-below branch — and in particular
classify(1.32, 0.1) = Intermittent. -/
theorem C1_classify_table (a c : ℚ) (_ha : 0 ≤ a) (_hc : 0 ≤ c) :
    (get_category (.fin a) (.fin c) = .Smooth ↔ a < 132/100 ∧ c < 49/100) ∧
    (get_category (.fin a) (.fin c) = .Erratic ↔ a < 132/100 ∧ 49/100 ≤ c) ∧
    (get_category (.fin a) (.fin c) = .Intermittent ↔ 132/100 ≤ a ∧ c < 49/100) ∧
    (get_category (.fin a) (.fin c) = .Lumpy ↔ 132/100 ≤ a ∧ 49/100 ≤ c) ∧
    get_category (.fin (132/100)) (.fin (1/10)) = .Intermittent := by
  have hb : get_category (.fin (132/100)) (.fin (1/10)) = .Intermittent := by
    norm_num [get_category, RVal.ltQ]
  refine ⟨?_, ?_, ?_, ?_, hb⟩ <;>
    (simp only [get_category, RVal.ltQ, decide_eq_true_eq]
     split_ifs with h1 h2 <;> simp_all)

/-- Witness for C1 at the concrete non-negative pair (1, 3/10). -/
theorem C1_classify_table_witness :
    ((0:ℚ) ≤ 1 ∧ (0:ℚ) ≤ 3/10) ∧
    ((get_category (.fin 1) (.fin (3/10)) = .Smooth ↔ (1:ℚ) < 132/100 ∧ (3/10:ℚ) < 49/100) ∧
     (get_category (.fin 1) (.fin (3/10)) = .Erratic ↔ (1:ℚ) < 132/100 ∧ (49/100:ℚ) ≤ 3/10) ∧
     (get_category (.fin 1) (.fin (3/10)) = .Intermittent ↔ (132/100:ℚ) ≤ 1 ∧ (3/10:ℚ) < 49/100) ∧
     (get_category (.fin 1) (.fin (3/10)) = .Lumpy ↔ (132/100:ℚ) ≤ 1 ∧ (49/100:ℚ) ≤ 3/10) ∧
     get_category (.fin (132/100)) (.fin (1/10)) = .Intermittent) :=
  ⟨⟨by norm_num, by norm_num⟩, C1_classify_table 1 (3/10) (by norm_num) (by norm_num)⟩

/-- C2: the supplier-reliability feature computed at line 96 is a function
of the global RNG stream alone; identical caller data under different RNG
states yields different feature values, so the value is fabricated rather
than passed through from any exogenous input.  (The function has no
supplier-reliability input at all; moreover the stockout crash means the
feature is never actually returned.) -/
theorem C2_supplier_fabricated :
    supplierReliabilityDraw [0] 1 = [7/10] ∧
    supplierReliabilityDraw [1/2] 1 = [17/20] ∧
    supplierReliabilityDraw [0] 1 ≠ supplierReliabilityDraw [1/2] 1 := by
  refine ⟨?_, ?_, ?_⟩ <;> norm_num [supplierReliabilityDraw]

/-- C3: the path-B pipeline (feature engineering, then fit, then predict)
never completes a single run — every run fails with AttributeError inside
feature engineering — so no two runs can produce identical (or any) feature
matrices, centroids, or assignments. -/
theorem C3_pipeline_never_completes (k seed : ℕ) (df : List KRow) (rng : List ℚ) :
    runPipeline k seed df rng = .error .attributeError := rfl

/-- Counterexample for C6 as stated: an input with zero observations does
not fail with a DataError; the computation returns the empty statistics
table. -/
theorem C6_counterexample : calculate_features [] = [] := rfl

/-- C6 (amended): the statistics computation is total and never raises — it
returns exactly one row per distinct (store, item) key of the input, the
empty input with zero observations yielding the empty table rather than a
DataError (no DataError exists in the source). -/
theorem C6_total_rows :
    calculate_features [] = [] ∧
    ∀ df : List SRow, (calculate_features df).length = (dfKeys df).length := by
  refine ⟨rfl, fun df => ?_⟩
  simp [calculate_features]

/-- C7: predict invoked on a freshly initialised segmenter, before any call
to fit, fails with NotFittedError for every feature matrix; it neither
refits nor returns assignments. -/
theorem C7_predict_before_fit (k seed : ℕ) (features : List (List ℚ)) :
    predict (initSegmenter k seed) features = .error .notFittedError := rfl

/-- C9: prepare_features never returns a feature matrix: for every input
batch (adversarial or not) and every RNG state it raises AttributeError in
the stockout step (line 149) before the sanitisation of lines 99-100 can
run. -/
theorem C9_prepare_features_always_raises (df : List KRow) (rng : List ℚ) :
    prepare_features df rng = .error .attributeError := rfl

/-- Sanitisation property of lines 99-100 in isolation: after the final
fillna/replace every field of a feature row is finite.  (Dead code in the
deployed path, since the stockout step raises first.) -/
theorem sanitizeFeat_finite (f : Feat) :
    (sanitizeFeat f).revenue_contribution.isFinite = true ∧
    (sanitizeFeat f).demand_cv.isFinite = true ∧
    (sanitizeFeat f).seasonality_strength.isFinite = true ∧
    (sanitizeFeat f).trend_slope.isFinite = true ∧
    (sanitizeFeat f).stockout_frequency.isFinite = true ∧
    (sanitizeFeat f).supplier_reliability.isFinite = true := by
  obtain ⟨f1, f2, f3, f4, f5, f6⟩ := f
  refine ⟨?_, ?_, ?_, ?_, ?_, ?_⟩ <;>
    (first
      | (cases f1 <;> rfl) | (cases f2 <;> rfl) | (cases f3 <;> rfl)
      | (cases f4 <;> rfl) | (cases f5 <;> rfl) | (cases f6 <;> rfl))

/-- C8: an entity whose series has fewer than 10 observations gets raw
trend slope exactly 0, and its batch-normalised slope (division by the
maximum absolute slope plus 1e-10, line 139) is exactly 0 as well. -/
theorem C8_short_series_slope_zero (df : List KRow) (key : ℕ × ℕ) (s : ℚ)
    (hmem : (key, s) ∈ trendSlopes df) (hshort : (salesOf df key).length < 10) :
    rawSlope (salesOf df key) = 0 ∧ s = 0 := by
  have hraw : rawSlope (salesOf df key) = 0 := by rw [rawSlope, if_pos hshort]
  refine ⟨hraw, ?_⟩
  simp only [trendSlopes] at hmem
  obtain ⟨p, hp, hpe⟩ := List.mem_map.mp hmem
  obtain ⟨k2, hk2, hke⟩ := List.mem_map.mp hp
  obtain ⟨pk, ps⟩ := p
  obtain ⟨he1, he2⟩ := Prod.mk.injEq .. ▸ hpe
  cases hke
  simp only at he1 he2
  subst he1
  rw [← he2, hraw, zero_div]

/-- Unfolding equation: fillna0 keeps a finite value. -/
theorem RVal.fillna0_fin (q : ℚ) : RVal.fillna0 (RVal.fin q) = RVal.fin q := rfl

/-- C4: every statistics row with at least one non-zero observation has
ADI computed as the finite quotient numObservations / nonZeroObservations
with ADI at least 1; its CV2 is a finite non-negative value always; and
CV2 is exactly 0 whenever nonZeroObservations is at most 1. -/
theorem C4_stats_invariants (df : List SRow) (r : StatRow)
    (hr : r ∈ calculate_features df) (hnz : 1 ≤ r.non_zero_obs) :
    r.ADI = RVal.fin ((r.num_observations : ℚ) / (r.non_zero_obs : ℚ)) ∧
    1 ≤ (r.num_observations : ℚ) / (r.non_zero_obs : ℚ) ∧
    (∃ q : ℚ, r.CV2 = RVal.fin q ∧ 0 ≤ q) ∧
    (r.non_zero_obs ≤ 1 → r.CV2 = RVal.fin 0) := by
  simp only [calculate_features] at hr
  obtain ⟨k, hk, rfl⟩ := List.mem_map.mp hr
  simp only [groupStats] at hnz ⊢
  set xs := groupSales df k with hxs
  set nzs := xs.filter (fun x => decide (0 < x)) with hnzs
  have hpos : ∀ x ∈ nzs, 0 < x := by
    intro x hx
    exact of_decide_eq_true (List.mem_filter.mp hx).2
  have hne : nzs ≠ [] := List.ne_nil_of_length_pos (by omega)
  have hsum : 0 < nzs.sum := List.sum_pos nzs hpos hne
  have hlenq : 0 < (nzs.length : ℚ) := by
    have : 0 < nzs.length := by omega
    exact_mod_cast this
  have hmean : 0 < meanQ nzs := by
    rw [meanQ]
    exact div_pos hsum hlenq
  have hlne : (nzs.length : ℚ) ≠ 0 := ne_of_gt hlenq
  have hmne : meanQ nzs ≠ 0 := ne_of_gt hmean
  have hle0 : ¬ (nzs.length = 0) := by omega
  refine ⟨?_, ?_, ?_, ?_⟩
  · rw [RVal.div, if_neg hlne]
  · have hmlen : (nzs.length : ℚ) ≤ (xs.length : ℚ) := by
      exact_mod_cast List.length_filter_le _ xs
    exact (one_le_div hlenq).mpr hmlen
  · rw [if_neg hle0, RVal.div, if_neg hmne, RVal.mul, RVal.fillna0_fin]
    exact ⟨_, rfl, mul_self_nonneg _⟩
  · intro h1
    have hlen1 : nzs.length ≤ 1 := h1
    rw [if_neg hle0, if_pos hlen1, RVal.div, if_neg hmne, RVal.mul, RVal.fillna0_fin,
      zero_div, zero_mul]

/-- Witness for C4 at a concrete two-day series with one non-zero sale. -/
theorem C4_stats_invariants_witness :
    ((groupStats 1 1 [5, 0] ∈ calculate_features [⟨1, 1, 0, 5⟩, ⟨1, 1, 1, 0⟩]) ∧
      1 ≤ (groupStats 1 1 [5, 0]).non_zero_obs) ∧
    ((groupStats 1 1 [5, 0]).ADI
        = RVal.fin (((groupStats 1 1 [5, 0]).num_observations : ℚ)
            / ((groupStats 1 1 [5, 0]).non_zero_obs : ℚ)) ∧
      1 ≤ ((groupStats 1 1 [5, 0]).num_observations : ℚ)
            / ((groupStats 1 1 [5, 0]).non_zero_obs : ℚ) ∧
      (∃ q : ℚ, (groupStats 1 1 [5, 0]).CV2 = RVal.fin q ∧ 0 ≤ q) ∧
      ((groupStats 1 1 [5, 0]).non_zero_obs ≤ 1 →
        (groupStats 1 1 [5, 0]).CV2 = RVal.fin 0)) :=
  ⟨⟨by
      rw [show calculate_features [⟨1, 1, 0, 5⟩, ⟨1, 1, 1, 0⟩]
          = [groupStats 1 1 [5, 0]] from by norm_num [calculate_features, dfKeys,
            groupSales]]
      exact List.mem_singleton.mpr rfl,
    by norm_num [groupStats]⟩,
   C4_stats_invariants [⟨1, 1, 0, 5⟩, ⟨1, 1, 1, 0⟩] (groupStats 1 1 [5, 0])
     (by
       rw [show calculate_features [⟨1, 1, 0, 5⟩, ⟨1, 1, 1, 0⟩]
           = [groupStats 1 1 [5, 0]] from by norm_num [calculate_features, dfKeys,
             groupSales]]
       exact List.mem_singleton.mpr rfl)
     (by norm_num [groupStats])⟩

/-- Witness for C8 at a concrete single-entity batch with two
observations. -/
theorem C8_short_series_slope_zero_witness :
    ((((1, 1), (0 : ℚ)) ∈ trendSlopes [⟨1, 1, 10, 2, 1⟩, ⟨1, 1, 20, 3, 1⟩]) ∧
      (salesOf [⟨1, 1, 10, 2, 1⟩, ⟨1, 1, 20, 3, 1⟩] (1, 1)).length < 10) ∧
    (rawSlope (salesOf [⟨1, 1, 10, 2, 1⟩, ⟨1, 1, 20, 3, 1⟩] (1, 1)) = 0 ∧
      (0 : ℚ) = 0) :=
  ⟨⟨by
      rw [show trendSlopes [⟨1, 1, 10, 2, 1⟩, ⟨1, 1, 20, 3, 1⟩]
          = [((1, 1), (0 : ℚ))] from by
            norm_num [trendSlopes, kKeys, salesOf, kGroup, rawSlope]]
      exact List.mem_singleton.mpr rfl,
    by norm_num [salesOf, kGroup]⟩,
   C8_short_series_slope_zero [⟨1, 1, 10, 2, 1⟩, ⟨1, 1, 20, 3, 1⟩] (1, 1) 0
     (by
       rw [show trendSlopes [⟨1, 1, 10, 2, 1⟩, ⟨1, 1, 20, 3, 1⟩]
           = [((1, 1), (0 : ℚ))] from by
             norm_num [trendSlopes, kKeys, salesOf, kGroup, rawSlope]]
       exact List.mem_singleton.mpr rfl)
     (by norm_num [salesOf, kGroup])⟩
